import Mathlib

/-
Verification of the scene-progression engine of app.py (an interactive
narrative engine built on a generative text backend).

The embedding below translates the Python source into Lean:
  * `Json` models Python values produced by `json.loads` (numbers are
    modelled as integers; every numeric literal appearing in the program
    and in the checked scenarios is an integer).
  * `loads` models `json.loads` on the fragment the program exercises:
    null / booleans / integers / strings (with the common escapes) /
    arrays / objects, with arbitrary JSON whitespace, rejecting trailing
    non-whitespace ("Extra data"), and keeping the last value for a
    duplicated object key, as Python's dict does.
  * `parse_llm_json`, `take_choice`, `start_new_adventure`, the session
    restart button and the "Begin Adventure" button are translated
    statement by statement from app.py.  The network call `call_llm` is
    replaced by an explicit `Option String` argument (the backend's raw
    text, or `none` for a failed call), which is exactly how the source
    consumes it.
  * Python dicts are modelled as insertion-ordered association lists with
    unique keys; `dictSet` models `d[k] = v` (update in place, append if
    new), `getVal` models `d.get(k)`.
  * An uncaught Python exception inside `take_choice` (an `AttributeError`
    from calling `.items()` on a non-dict, or a `TypeError` from adding a
    number to a non-numeric value) is modelled by the `Outcome.crashed`
    result; the session fields are returned exactly as the in-place
    mutations left them at the moment the exception was raised, which is
    what `st.session_state` retains in the source.
-/

/-- Json values as returned by `json.loads` in the source (numbers modelled
as integers, which covers every value the program and the checked scenarios
manipulate). -/
inductive Json where
  | null
  | bool (b : Bool)
  | num (n : Int)
  | str (s : String)
  | arr (xs : List Json)
  | obj (kvs : List (String × Json))

/-- Python `d.get(k)` on an insertion-ordered association list. -/
def getVal (k : String) : List (String × Json) → Option Json
  | [] => none
  | (k0, v0) :: rest => if k0 = k then some v0 else getVal k rest

/-- Python `d[k] = v`: replace the value of an existing key in place,
otherwise append the new key at the end (insertion order). -/
def dictSet : List (String × Json) → String → Json → List (String × Json)
  | [], k, v => [(k, v)]
  | (k0, v0) :: rest, k, v =>
    if k0 = k then (k0, v) :: rest else (k0, v0) :: dictSet rest k v

/-- Python `isinstance(v, (int, float))` together with the numeric value:
booleans are instances of `int` in Python, so they count as numeric
(`True` is `1`, `False` is `0`). -/
def numVal : Json → Option Int
  | Json.num n => some n
  | Json.bool b => some (if b then 1 else 0)
  | _ => none

/-- Python truthiness of a decoded JSON value. -/
def isTruthy : Json → Bool
  | Json.null => false
  | Json.bool b => b
  | Json.num n => decide (n ≠ 0)
  | Json.str s => decide (s ≠ "")
  | Json.arr xs => !xs.isEmpty
  | Json.obj kvs => !kvs.isEmpty

/-- JSON whitespace accepted by `json.loads` between tokens. -/
def jsonWs (c : Char) : Bool :=
  c == ' ' || c == '\t' || c == '\n' || c == '\r'

/-- Skip JSON whitespace. -/
def skipWs (cs : List Char) : List Char := cs.dropWhile jsonWs

/-- Decode the body of a JSON string literal (after the opening quote),
handling the standard single-character escapes. -/
def parseStr : List Char → List Char → Option (String × List Char)
  | [], _ => none
  | '"' :: rest, acc => some (String.mk acc.reverse, rest)
  | '\\' :: e :: rest, acc =>
    match e with
    | '"' => parseStr rest ('"' :: acc)
    | '\\' => parseStr rest ('\\' :: acc)
    | '/' => parseStr rest ('/' :: acc)
    | 'n' => parseStr rest ('\n' :: acc)
    | 't' => parseStr rest ('\t' :: acc)
    | 'r' => parseStr rest ('\r' :: acc)
    | 'b' => parseStr rest ('\x08' :: acc)
    | 'f' => parseStr rest ('\x0c' :: acc)
    | _ => none
  | '\\' :: [], _ => none
  | c :: rest, acc => parseStr rest (c :: acc)

/-- Decode a run of decimal digits into a natural number. -/
def parseDigits (cs : List Char) : Option (Nat × List Char) :=
  let ds := cs.takeWhile Char.isDigit
  if ds.isEmpty then none
  else some (ds.foldl (fun a c => a * 10 + (c.toNat - 48)) 0, cs.dropWhile Char.isDigit)

/-- Build a Python dict from object members in source order: a duplicated
key keeps the last value, at the position of its first occurrence. -/
def objFinish (accRev : List (String × Json)) : List (String × Json) :=
  accRev.reverse.foldl (fun d kv => dictSet d kv.1 kv.2) []

mutual

/-- Recursive-descent JSON value decoder (fuel-indexed; the fuel passed by
`loads` is always sufficient because every recursive call consumes input). -/
def parseValue : Nat → List Char → Option (Json × List Char)
  | 0, _ => none
  | Nat.succ fuel, cs =>
    match skipWs cs with
    | 'n' :: 'u' :: 'l' :: 'l' :: rest => some (Json.null, rest)
    | 't' :: 'r' :: 'u' :: 'e' :: rest => some (Json.bool true, rest)
    | 'f' :: 'a' :: 'l' :: 's' :: 'e' :: rest => some (Json.bool false, rest)
    | '"' :: rest =>
      (match parseStr rest [] with
       | some (s, rest2) => some (Json.str s, rest2)
       | none => none)
    | '[' :: rest =>
      (match skipWs rest with
       | ']' :: rest2 => some (Json.arr [], rest2)
       | _ => parseArrItems fuel rest [])
    | '{' :: rest =>
      (match skipWs rest with
       | '}' :: rest2 => some (Json.obj [], rest2)
       | _ => parseObjItems fuel rest [])
    | '-' :: rest =>
      (match parseDigits rest with
       | some (n, rest2) => some (Json.num (-(n : Int)), rest2)
       | none => none)
    | c :: rest =>
      if c.isDigit then
        match parseDigits (c :: rest) with
        | some (n, rest2) => some (Json.num (n : Int), rest2)
        | none => none
      else none
    | [] => none

/-- Decode the members of a non-empty JSON array. -/
def parseArrItems : Nat → List Char → List Json → Option (Json × List Char)
  | 0, _, _ => none
  | Nat.succ fuel, cs, acc =>
    match parseValue fuel cs with
    | none => none
    | some (v, rest) =>
      match skipWs rest with
      | ',' :: rest2 => parseArrItems fuel rest2 (v :: acc)
      | ']' :: rest2 => some (Json.arr (v :: acc).reverse, rest2)
      | _ => none

/-- Decode the members of a non-empty JSON object. -/
def parseObjItems : Nat → List Char → List (String × Json) → Option (Json × List Char)
  | 0, _, _ => none
  | Nat.succ fuel, cs, acc =>
    match skipWs cs with
    | '"' :: rest =>
      (match parseStr rest [] with
       | none => none
       | some (k, rest2) =>
         match skipWs rest2 with
         | ':' :: rest3 =>
           (match parseValue fuel rest3 with
            | none => none
            | some (v, rest4) =>
              match skipWs rest4 with
              | ',' :: rest5 => parseObjItems fuel rest5 ((k, v) :: acc)
              | '}' :: rest5 => some (Json.obj (objFinish ((k, v) :: acc)), rest5)
              | _ => none)
         | _ => none)
    | _ => none

end

/-- Python `json.loads`: decode one JSON value and reject any trailing
non-whitespace ("Extra data"); `none` models a raised `JSONDecodeError`. -/
def loads (s : String) : Option Json :=
  match parseValue (s.toList.length + 8) s.toList with
  | some (v, rest) => if (skipWs rest).isEmpty then some v else none
  | none => none

/-- Characters stripped by Python `str.strip()` with no argument. -/
def isPySpace (c : Char) : Bool :=
  c == ' ' || c == '\t' || c == '\n' || c == '\r' || c == '\x0b' || c == '\x0c'

/-- Python `text.strip()`. -/
def pyStrip (cs : List Char) : List Char :=
  ((cs.dropWhile isPySpace).reverse.dropWhile isPySpace).reverse

/-- Python `text.strip("```")`: `str.strip` treats its argument as a set of
characters, so this strips backtick characters from both ends — and nothing
else (in particular a `json` language tag after the opening fence stays). -/
def stripBackticks (cs : List Char) : List Char :=
  ((cs.dropWhile (fun c => c == Char.ofNat 96)).reverse.dropWhile
     (fun c => c == Char.ofNat 96)).reverse

/-- In the source, callers test the result of `parse_llm_json` with
`is None`; a decoded JSON `null` is the Python value `None`, so it is
observationally a failure.  This maps a decoded value to the caller's view. -/
def pyNone : Json → Option Json
  | Json.null => none
  | j => some j

/-- The `except` branch of `parse_llm_json`: strip whitespace, strip
backtick characters, strip whitespace again and retry `json.loads` once. -/
def fallback_parse (text : String) : Option Json :=
  (loads (String.mk (pyStrip (stripBackticks (pyStrip text.toList))))).bind pyNone

/-- app.py, `parse_llm_json`: locate the first opening brace and decode from
there to the end of the text; on any exception (no brace found, or decode
error), strip fence characters and retry the decode once; `none` models the
Python result `None`. -/
def parse_llm_json (text : String) : Option Json :=
  match text.toList.dropWhile (fun c => !(c == '{')) with
  | [] => fallback_parse text
  | after =>
    match loads (String.mk after) with
    | some j => pyNone j
    | none => fallback_parse text

/-- One applied transition, as pushed onto `st.session_state.story_history`
by `take_choice` (and by the "Begin Adventure" button).  The three fields
read off the parsed object use `dict.get`, whose result is the Python value
`None` — modelled `Json.null` — when the key is absent. -/
structure HistoryEntry where
  scene_id : Json
  narrative : Json
  choices : Json
  choice_taken : String
  raw_llm : String

/-- The value of `st.session_state.current_scene`: either a history entry,
or the synthetic prologue dict `\x7bscene_id, narrative\x7d` installed by
`start_new_adventure` (which is not a history entry: it lacks the other
three keys and is never appended to the ledger). -/
inductive Scene where
  | fromEntry (e : HistoryEntry)
  | prologue (scene_id : String) (narrative : String)

/-- The engine session: the fields of `st.session_state` that the
scene-progression logic reads and writes (`pc`, `story_history`,
`current_scene`).  Backend settings are irrelevant to the checked claims. -/
structure Session where
  pc : List (String × Json)
  story_history : List HistoryEntry
  current_scene : Option Scene

/-- Result of one `take_choice` run, as observable in the source:
no backend response, a parse failure (raw text preserved for display),
an uncaught Python exception, or a successful transition. -/
inductive Outcome where
  | noResponse
  | parseFailed (raw : String)
  | crashed
  | ok (e : HistoryEntry)

/-- Python `pc.get(k, 0)`: the existing value of the key, `0` when absent. -/
def oldOf (pc : List (String × Json)) (k : String) : Json :=
  (getVal k pc).getD (Json.num 0)

/-- app.py, `take_choice` lines 153–160: the state-update loop.  For each
`(k, v)` of `updates` in insertion order: when `isinstance(v, (int, float))`
holds, `pc[k] = pc.get(k, 0) + v`; otherwise `pc[k] = v`.  The source writes
directly into `st.session_state.pc`, so when the addition raises `TypeError`
(existing value not numeric) the updates already performed persist: the
`error` payload is the dict exactly as the in-place writes left it. -/
def apply_state_updates (pc : List (String × Json)) :
    List (String × Json) → Except (List (String × Json)) (List (String × Json))
  | [] => Except.ok pc
  | (k, v) :: rest =>
    match numVal v with
    | some d =>
      (match numVal (oldOf pc k) with
       | some o => apply_state_updates (dictSet pc k (Json.num (o + d))) rest
       | none => Except.error pc)
    | none => apply_state_updates (dictSet pc k v) rest

/-- app.py, `take_choice` line 154: `updates = parsed.get("state_updates") or \x7b\x7d`
followed by `updates.items()`.  A missing or falsy value yields the empty
dict; a truthy non-dict value raises `AttributeError` at `.items()` before
any state is written (the `error` result). -/
def getUpdates (kvs : List (String × Json)) : Except Unit (List (String × Json)) :=
  match getVal "state_updates" kvs with
  | none => Except.ok []
  | some v =>
    if isTruthy v then
      match v with
      | Json.obj u => Except.ok u
      | _ => Except.error ()
    else Except.ok []

/-- The history-entry dict literal built in `take_choice` (lines 162–168)
and in the "Begin Adventure" handler: each scene field is
`parsed.get(key)`, i.e. `Json.null` when the key is absent. -/
def history_entry_of (kvs : List (String × Json)) (choice_text raw : String) : HistoryEntry :=
  { scene_id := (getVal "scene_id" kvs).getD Json.null,
    narrative := (getVal "narrative" kvs).getD Json.null,
    choices := (getVal "choices" kvs).getD Json.null,
    choice_taken := choice_text,
    raw_llm := raw }

/-- The prompt payload built by `build_messages`, to the extent the checked
claims observe it: the trailing history window passed to the backend, and
the player's input with its free-text flag.  The surrounding fixed prompt
text does not influence any engine state. -/
structure PromptMessages where
  history_excerpt : List HistoryEntry
  player_input : String
  is_custom : Bool

/-- app.py, `build_messages` line 62: `hist_excerpt = history[-6:]` — the
last six ledger entries (fewer if the history is shorter), in original
order, most recent last. -/
def build_messages (_pc : List (String × Json)) (history : List HistoryEntry)
    (player_input : String) (is_custom : Bool) : PromptMessages :=
  { history_excerpt := history.drop (history.length - 6),
    player_input := player_input,
    is_custom := is_custom }

/-- The generalisation of the source's `history[-6:]` slice to an arbitrary
window size (the spec's `window(n)`): the last `n` entries, fewer if the
history is shorter. -/
def histWindow (n : Nat) (l : List HistoryEntry) : List HistoryEntry :=
  l.drop (l.length - n)

/-- app.py, `take_choice` (lines 140–172).  The backend's reply is the
`raw?` argument (`none` models `call_llm` returning `None` after an API
error).  On a `None` reply or a parse failure the function returns before
touching any state; on parse success the update loop runs, then exactly one
history entry is appended and becomes the current scene.  `Outcome.crashed`
marks an uncaught exception (`.items()` on a truthy non-dict, `.get` on a
non-dict decode result, or `TypeError` inside the update loop); the session
is returned as the already-performed in-place writes left it. -/
def take_choice (s : Session) (choice_text : String) (is_custom : Bool)
    (raw? : Option String) : Session × Outcome :=
  let _msgs := build_messages s.pc s.story_history choice_text is_custom
  match raw? with
  | none => (s, Outcome.noResponse)
  | some raw =>
    match parse_llm_json raw with
    | none => (s, Outcome.parseFailed raw)
    | some parsed =>
      match parsed with
      | Json.obj kvs =>
        (match getUpdates kvs with
         | Except.error _ => (s, Outcome.crashed)
         | Except.ok updates =>
           match apply_state_updates s.pc updates with
           | Except.error pcNow => ({ s with pc := pcNow }, Outcome.crashed)
           | Except.ok pc2 =>
             let entry := history_entry_of kvs choice_text raw
             ({ pc := pc2,
                story_history := s.story_history ++ [entry],
                current_scene := some (Scene.fromEntry entry) }, Outcome.ok entry))
      | _ => (s, Outcome.crashed)

/-- app.py, character creation (lines 211–222): the initial player dict in
source order, with `hp = 10`, empty `relationship`, empty `inventory`;
history and current scene are still empty at this point. -/
def create_character (name court archetype : String)
    (strength guile magic : Int) : Session :=
  { pc := [("name", Json.str name), ("court", Json.str court),
           ("archetype", Json.str archetype), ("strength", Json.num strength),
           ("guile", Json.num guile), ("magic", Json.num magic),
           ("hp", Json.num 10), ("relationship", Json.obj []),
           ("inventory", Json.arr [])],
    story_history := [],
    current_scene := none }

/-- The player's name as used by the prologue f-string (`pc['name']`;
always a string, set by the creation form). -/
def pcName (pc : List (String × Json)) : String :=
  match getVal "name" pc with
  | some (Json.str n) => n
  | _ => ""

/-- app.py, `start_new_adventure` (lines 130–138): clear the history and
install a synthetic prologue dict as the current scene — note the ledger
stays empty while the current scene becomes non-null. -/
def start_new_adventure (s : Session) : Session :=
  { s with
    story_history := [],
    current_scene := some (Scene.prologue "prologue_01"
      (pcName s.pc ++ " arrives at the border of a glittering fae court as twilight bleeds across the sky.")) }

/-- app.py, the "Restart session (clear story)" button (lines 194–197). -/
def restart_session (s : Session) : Session :=
  { s with story_history := [], current_scene := none }

/-- app.py, the "Begin Adventure" button (lines 243–266): request the
opening scene, and on parse success append a history entry with
`choice_taken = ""` and make it current; on failure nothing changes
(a non-dict decode result raises at `parsed.get` before any write). -/
def begin_adventure (s : Session) (raw? : Option String) : Session :=
  match raw? with
  | none => s
  | some raw =>
    match parse_llm_json raw with
    | none => s
    | some (Json.obj kvs) =>
      let entry := history_entry_of kvs "" raw
      { s with
        story_history := s.story_history ++ [entry],
        current_scene := some (Scene.fromEntry entry) }
    | some _ => s

/-- The invariant claimed for the session: the current scene pointer equals
the last ledger entry, or is null exactly when the ledger is empty. -/
def currentMatchesLedger (s : Session) : Prop :=
  s.current_scene = (s.story_history.getLast?).map Scene.fromEntry


/- Concrete inputs used by the counterexamples and witnesses below. -/

/-- A backend reply that decodes to a JSON mapping with no narrative at all. -/
def rawEmptyObj : String := "\x7b\x7d"

/-- A valid SceneDelta as JSON text, with no wrapping. -/
def rawSceneBare : String :=
  "\x7b\"scene_id\": \"s1\", \"narrative\": \"You step forward.\", \"choices\": [\"Fight\", \"Flee\"]\x7d"

/-- The decoded form of `rawSceneBare`. -/
def sceneBareJson : Json :=
  Json.obj [("scene_id", Json.str "s1"), ("narrative", Json.str "You step forward."),
    ("choices", Json.arr [Json.str "Fight", Json.str "Flee"])]

/-- The text `rawSceneBare` wrapped in a markdown code fence carrying the common
`json` language tag. -/
def rawSceneJsonFence : String :=
  "```json\n\x7b\"scene_id\": \"s1\", \"narrative\": \"You step forward.\", \"choices\": [\"Fight\", \"Flee\"]\x7d\n```"

/-- The text `rawSceneBare` wrapped in whitespace and a bare markdown code fence. -/
def rawScenePlainFence : String :=
  "  ```\n\x7b\"scene_id\": \"s1\", \"narrative\": \"You step forward.\", \"choices\": [\"Fight\", \"Flee\"]\x7d\n```  "

/-- A reply whose decode succeeds but whose `choices` has duplicates. -/
def rawDupChoices : String := "\x7b\"narrative\": \"n\", \"choices\": [\"x\", \"x\"]\x7d"

/-- A reply whose decode succeeds but whose `choices` has six entries. -/
def rawSixChoices : String :=
  "\x7b\"narrative\": \"n\", \"choices\": [\"a\", \"b\", \"c\", \"d\", \"e\", \"f\"]\x7d"

/-- A reply whose decode succeeds, with an empty narrative. -/
def rawEmptyNarrative : String := "\x7b\"narrative\": \"\"\x7d"

/-- A reply whose decode succeeds but whose `state_updates` is a number,
not a mapping. -/
def rawNonMappingUpdates : String := "\x7b\"narrative\": \"n\", \"state_updates\": 3\x7d"

/-- A reply that decodes to a mapping whose `state_updates` is a truthy
non-mapping (a string), which makes `updates.items()` raise. -/
def rawStringUpdates : String := "\x7b\"state_updates\": \"oops\"\x7d"

/-- A reply whose `state_updates` adds a numeric delta to `hp` and then a
numeric delta to `name`, whose existing value is a string. -/
def rawHpThenName : String := "\x7b\"state_updates\": \x7b\"hp\": -2, \"name\": 1\x7d\x7d"

/-- The claim C7 backend reply, verbatim. -/
def rawC7 : String :=
  "\x7b\"scene_id\":\"s1\",\"narrative\":\"You step forward.\",\"choices\":[\"Fight\",\"Flee\",\"Negotiate\"],\"state_updates\":\x7b\"hp\":-2\x7d\x7d"

/-- The claim C7 starting character state, with an empty ledger. -/
def sessionC7 : Session := ⟨[("hp", Json.num 10), ("strength", Json.num 5)], [], none⟩

/-- The history entry produced by the claim C7 scenario. -/
def entryC7 : HistoryEntry :=
  ⟨Json.str "s1", Json.str "You step forward.",
   Json.arr [Json.str "Fight", Json.str "Flee", Json.str "Negotiate"], "begin", rawC7⟩

/-- A session holding a character with a numeric `hp` and a string `name`. -/
def sessionAryn : Session := ⟨[("hp", Json.num 10), ("name", Json.str "Aryn")], [], none⟩

/-- A simple session used to exercise failure paths. -/
def sessionPlain : Session := ⟨[("hp", Json.num 10)], [], none⟩

/-- A reply carrying only a scene id: narrative and choices are absent. -/
def rawOnlySceneId : String := "\x7b\"scene_id\": \"s9\"\x7d"

/-- A placeholder ledger entry (used to build concrete ledgers). -/
def dummyEntry (i : Int) : HistoryEntry := ⟨Json.num i, Json.null, Json.null, "", ""⟩

/-- A concrete ledger with ten entries. -/
def tenLedger : List HistoryEntry :=
  (List.range 10).map (fun i => dummyEntry (Int.ofNat i))

/-- A character state whose `flag` attribute holds a string. -/
def pcFlag : List (String × Json) := [("flag", Json.str "on")]

/-- An updates mapping sending a numeric delta to the `flag` key. -/
def usFlag : List (String × Json) := [("flag", Json.num 1)]

/-- A character state with a string-valued `mood` before a numeric `hp`. -/
def pcMood : List (String × Json) := [("mood", Json.str "calm"), ("hp", Json.num 7)]

/-- Updates that first bump `hp`, then send a numeric delta to the
string-valued `mood`. -/
def usMood : List (String × Json) := [("hp", Json.num 1), ("mood", Json.num 2)]

/-- A small all-numeric character state. -/
def pcW9 : List (String × Json) := [("hp", Json.num 4), ("guile", Json.num 6)]

/-- A single-key numeric updates mapping. -/
def usW9 : List (String × Json) := [("hp", Json.num 2)]

/-- A character state with a numeric `hp` and a string `name`. -/
def pcW4 : List (String × Json) := [("hp", Json.num 10), ("name", Json.str "A")]

/-- Updates with one delta on an existing numeric key and one on an absent
key. -/
def usW4 : List (String × Json) := [("hp", Json.num (-2)), ("xp", Json.num 5)]

/-- The session right after the character-creation form submits: the code
creates the player dict and immediately runs `start_new_adventure`. -/
def sessionStarted : Session :=
  start_new_adventure
    (create_character "Aryn" "Night Court (mysterious)" "Wary Survivor" 5 6 3)

/- Helper lemmas about the dictionary model and the update loop. -/

theorem getVal_dictSet_self (pc : List (String × Json)) (k : String) (v : Json) :
    getVal k (dictSet pc k v) = some v := by
  induction pc with
  | nil => simp [dictSet, getVal]
  | cons hd tl ih =>
    obtain ⟨k0, v0⟩ := hd
    by_cases h : k0 = k
    · simp [dictSet, getVal, h]
    · simp [dictSet, getVal, h, ih]

theorem getVal_dictSet_ne (pc : List (String × Json)) (k k' : String) (v : Json)
    (h : k' ≠ k) : getVal k' (dictSet pc k v) = getVal k' pc := by
  induction pc with
  | nil =>
    simp only [dictSet, getVal]
    rw [if_neg (fun e => h e.symm)]
  | cons hd tl ih =>
    obtain ⟨k0, v0⟩ := hd
    by_cases h0 : k0 = k
    · subst h0
      simp only [dictSet, if_pos rfl, getVal]
      rw [if_neg (fun e => h e.symm), if_neg (fun e => h e.symm)]
    · simp only [dictSet, if_neg h0, getVal]
      by_cases h1 : k0 = k'
      · rw [if_pos h1, if_pos h1]
      · rw [if_neg h1, if_neg h1, ih]

/-- Keys not named in the updates are untouched by the update loop. -/
theorem apply_frame (us : List (String × Json)) :
    ∀ pc pc' : List (String × Json), apply_state_updates pc us = Except.ok pc' →
      ∀ k, k ∉ us.map Prod.fst → getVal k pc' = getVal k pc := by
  induction us with
  | nil =>
    intro pc pc' h k _
    simp only [apply_state_updates] at h
    cases h
    rfl
  | cons hd rest ih =>
    intro pc pc' h k hk
    obtain ⟨k0, v⟩ := hd
    simp only [List.map_cons, List.mem_cons] at hk
    push_neg at hk
    obtain ⟨hk0, hkr⟩ := hk
    simp only [apply_state_updates] at h
    cases hv : numVal v with
    | some d =>
      rw [hv] at h
      cases ho : numVal (oldOf pc k0) with
      | some o =>
        rw [ho] at h
        have := ih _ _ h k hkr
        rw [this, getVal_dictSet_ne _ _ _ _ hk0]
      | none => rw [ho] at h; cases h
    | none =>
      rw [hv] at h
      have := ih _ _ h k hkr
      rw [this, getVal_dictSet_ne _ _ _ _ hk0]

/-- If every character of a list satisfies the predicate, `dropWhile`
removes the whole list. -/
theorem dropWhile_nil_of_all {p : Char → Bool} (l : List Char) (h : l.all p = true) :
    l.dropWhile p = [] := by
  induction l with
  | nil => rfl
  | cons c cs ih =>
    simp only [List.all_cons, Bool.and_eq_true] at h
    simp [List.dropWhile_cons, h.1, ih h.2]

/-- The last element of a ledger after an append. -/
theorem getLast?_append_singleton {α : Type} (l : List α) (a : α) :
    (l ++ [a]).getLast? = some a := by
  rw [List.getLast?_concat]

/-- C4 (amended): on an updates mapping whose numeric deltas all hit
numeric-or-absent existing values, the update loop succeeds and the final
state gives each numeric-delta key `old + delta` (old `0` when absent),
each non-numeric key the replacement value, and leaves every other key
unchanged.  (The unamended claim fails when a numeric delta hits an
existing non-numeric value: Python raises `TypeError`, see the
counterexample.) -/
theorem claim_c4_apply_merge_rules (pc us : List (String × Json))
    (hnd : (us.map Prod.fst).Nodup)
    (hty : ∀ p ∈ us, (numVal p.2).isSome = true → (numVal (oldOf pc p.1)).isSome = true) :
    ∃ pc', apply_state_updates pc us = Except.ok pc' ∧
      (∀ p ∈ us, ∀ d, numVal p.2 = some d →
        getVal p.1 pc' = some (Json.num ((numVal (oldOf pc p.1)).getD 0 + d))) ∧
      (∀ p ∈ us, numVal p.2 = none → getVal p.1 pc' = some p.2) ∧
      (∀ k, k ∉ us.map Prod.fst → getVal k pc' = getVal k pc) := by
  induction us generalizing pc with
  | nil =>
    exact ⟨pc, rfl, by simp, by simp, fun k _ => rfl⟩
  | cons hd rest ih =>
    obtain ⟨k0, v⟩ := hd
    have hnd' : (rest.map Prod.fst).Nodup := (List.nodup_cons.mp (by simpa using hnd)).2
    have hnd0 : k0 ∉ rest.map Prod.fst := (List.nodup_cons.mp (by simpa using hnd)).1
    cases hv : numVal v with
    | some d =>
      have hty0 : (numVal (oldOf pc k0)).isSome = true := by
        have := hty (k0, v) (List.mem_cons_self _ _)
        simp only [hv, Option.isSome_some] at this
        exact this trivial
      obtain ⟨o, ho⟩ := Option.isSome_iff_exists.mp hty0
      have hstep : apply_state_updates pc ((k0, v) :: rest)
          = apply_state_updates (dictSet pc k0 (Json.num (o + d))) rest := by
        simp only [apply_state_updates, hv, ho]
      have hty' : ∀ p ∈ rest, (numVal p.2).isSome = true →
          (numVal (oldOf (dictSet pc k0 (Json.num (o + d))) p.1)).isSome = true := by
        intro p hp hnum
        have hne : p.1 ≠ k0 := fun e => hnd0 (e ▸ List.mem_map_of_mem Prod.fst hp)
        have heq : oldOf (dictSet pc k0 (Json.num (o + d))) p.1 = oldOf pc p.1 := by
          unfold oldOf
          rw [getVal_dictSet_ne _ _ _ _ hne]
        rw [heq]
        exact hty p (List.mem_cons_of_mem _ hp) hnum
      obtain ⟨pc', hok, Hnum, Hrep, Hfr⟩ := ih _ hnd' hty'
      refine ⟨pc', by rw [hstep]; exact hok, ?_, ?_, ?_⟩
      · intro p hp d' hd'
        rcases List.mem_cons.mp hp with he | hp'
        · subst he
          have hdd : d' = d := by
            rw [hv] at hd'
            exact (Option.some.inj hd').symm
          subst hdd
          rw [Hfr k0 hnd0, getVal_dictSet_self, ho]
          rfl
        · have hne : p.1 ≠ k0 := fun e => hnd0 (e ▸ List.mem_map_of_mem Prod.fst hp')
          have heq : oldOf (dictSet pc k0 (Json.num (o + d))) p.1 = oldOf pc p.1 := by
            unfold oldOf
            rw [getVal_dictSet_ne _ _ _ _ hne]
          rw [← heq]
          exact Hnum p hp' d' hd'
      · intro p hp hnone
        rcases List.mem_cons.mp hp with he | hp'
        · subst he
          rw [hv] at hnone
          cases hnone
        · exact Hrep p hp' hnone
      · intro k hk
        simp only [List.map_cons, List.mem_cons] at hk
        push_neg at hk
        rw [Hfr k hk.2, getVal_dictSet_ne _ _ _ _ hk.1]
    | none =>
      have hstep : apply_state_updates pc ((k0, v) :: rest)
          = apply_state_updates (dictSet pc k0 v) rest := by
        simp only [apply_state_updates, hv]
      have hty' : ∀ p ∈ rest, (numVal p.2).isSome = true →
          (numVal (oldOf (dictSet pc k0 v) p.1)).isSome = true := by
        intro p hp hnum
        have hne : p.1 ≠ k0 := fun e => hnd0 (e ▸ List.mem_map_of_mem Prod.fst hp)
        have heq : oldOf (dictSet pc k0 v) p.1 = oldOf pc p.1 := by
          unfold oldOf
          rw [getVal_dictSet_ne _ _ _ _ hne]
        rw [heq]
        exact hty p (List.mem_cons_of_mem _ hp) hnum
      obtain ⟨pc', hok, Hnum, Hrep, Hfr⟩ := ih _ hnd' hty'
      refine ⟨pc', by rw [hstep]; exact hok, ?_, ?_, ?_⟩
      · intro p hp d' hd'
        rcases List.mem_cons.mp hp with he | hp'
        · subst he
          rw [hv] at hd'
          cases hd'
        · have hne : p.1 ≠ k0 := fun e => hnd0 (e ▸ List.mem_map_of_mem Prod.fst hp')
          have heq : oldOf (dictSet pc k0 v) p.1 = oldOf pc p.1 := by
            unfold oldOf
            rw [getVal_dictSet_ne _ _ _ _ hne]
          rw [← heq]
          exact Hnum p hp' d' hd'
      · intro p hp hnone
        rcases List.mem_cons.mp hp with he | hp'
        · subst he
          rw [Hfr k0 hnd0, getVal_dictSet_self]
        · exact Hrep p hp' hnone
      · intro k hk
        simp only [List.map_cons, List.mem_cons] at hk
        push_neg at hk
        rw [Hfr k hk.2, getVal_dictSet_ne _ _ _ _ hk.1]

/-- C4 witness: the merge-rules theorem applied to a concrete state and
updates mapping (delta on an existing numeric key, delta on an absent key). -/
theorem claim_c4_witness :
    ((usW4.map Prod.fst).Nodup) ∧
    (∀ p ∈ usW4, (numVal p.2).isSome = true → (numVal (oldOf pcW4 p.1)).isSome = true) ∧
    (∃ pc', apply_state_updates pcW4 usW4 = Except.ok pc' ∧
      (∀ p ∈ usW4, ∀ d, numVal p.2 = some d →
        getVal p.1 pc' = some (Json.num ((numVal (oldOf pcW4 p.1)).getD 0 + d))) ∧
      (∀ p ∈ usW4, numVal p.2 = none → getVal p.1 pc' = some p.2) ∧
      (∀ k, k ∉ usW4.map Prod.fst → getVal k pc' = getVal k pcW4)) :=
  ⟨by decide, by decide, claim_c4_apply_merge_rules pcW4 usW4 (by decide) (by decide)⟩

/-- C4 counterexample: a numeric delta aimed at a key whose existing value
is a string.  The claim as stated promises a resulting state with
`old + delta` at that key; the code instead raises `TypeError` inside the
update loop (`"on" + 1`), so `apply` yields no state at all. -/
theorem claim_c4_counterexample :
    numVal (Json.num 1) = some 1 ∧
    getVal "flag" pcFlag = some (Json.str "on") ∧
    apply_state_updates pcFlag usFlag = Except.error pcFlag :=
  ⟨rfl, rfl, rfl⟩

/-- C9 (amended): the update loop writes into the character dict in place;
what it does preserve is every key not named in the updates mapping — on a
successful run those keys are untouched.  (The unamended claim — a fresh
snapshot, input never modified — fails: on a mid-loop `TypeError` the
earlier in-place writes persist, see the counterexample.) -/
theorem claim_c9_untouched_keys (pc us pc' : List (String × Json))
    (h : apply_state_updates pc us = Except.ok pc') :
    ∀ k, k ∉ us.map Prod.fst → getVal k pc' = getVal k pc :=
  apply_frame us pc pc' h

/-- C9 witness: the untouched-keys theorem at a concrete run. -/
theorem claim_c9_witness :
    apply_state_updates pcW9 usW9 = Except.ok [("hp", Json.num 6), ("guile", Json.num 6)] ∧
    getVal "guile" [("hp", Json.num 6), ("guile", Json.num 6)] = getVal "guile" pcW9 :=
  ⟨rfl, claim_c9_untouched_keys pcW9 usW9 _ rfl "guile" (by decide)⟩

/-- C9 counterexample: a numeric delta on `hp` followed by a numeric delta
on the string-valued `mood`.  The loop applies the `hp` update in place,
then raises `TypeError` on `mood`; the character dict left in the session
differs from the input snapshot (`hp` is already 8), so `apply` does not
leave the input snapshot unmodified. -/
theorem claim_c9_counterexample :
    apply_state_updates pcMood usMood
      = Except.error [("mood", Json.str "calm"), ("hp", Json.num 8)] ∧
    getVal "hp" [("mood", Json.str "calm"), ("hp", Json.num 8)] ≠ getVal "hp" pcMood := by
  refine ⟨rfl, ?_⟩
  intro h
  rw [show getVal "hp" [("mood", Json.str "calm"), ("hp", Json.num 8)] = some (Json.num 8) from rfl,
     show getVal "hp" pcMood = some (Json.num 7) from rfl] at h
  injection h with h2
  injection h2 with h3
  omega

/-- Running `take_choice` with no backend reply returns before touching any state. -/
theorem tc_none_eq (s : Session) (c : String) (b : Bool) :
    take_choice s c b none = (s, Outcome.noResponse) := rfl

/-- Running `take_choice` on a reply that fails to parse returns before touching
any state, preserving the raw text in the outcome. -/
theorem tc_parse_failed_eq (s : Session) (c : String) (b : Bool) (raw : String)
    (h : parse_llm_json raw = none) :
    take_choice s c b (some raw) = (s, Outcome.parseFailed raw) := by
  simp only [take_choice, h]

/-- Running `take_choice` on a parsed mapping whose updates apply cleanly: the
update-loop result becomes the character state, exactly one entry is
appended, and that entry becomes the current scene. -/
theorem tc_ok_eq (s : Session) (c : String) (b : Bool) (raw : String)
    (kvs updates pc2 : List (String × Json))
    (hp : parse_llm_json raw = some (Json.obj kvs))
    (hu : getUpdates kvs = Except.ok updates)
    (ha : apply_state_updates s.pc updates = Except.ok pc2) :
    take_choice s c b (some raw) =
      ({ pc := pc2,
         story_history := s.story_history ++ [history_entry_of kvs c raw],
         current_scene := some (Scene.fromEntry (history_entry_of kvs c raw)) },
       Outcome.ok (history_entry_of kvs c raw)) := by
  simp only [take_choice, hp, hu, ha]

/-- C2 (amended): a failure at the backend step or at the parse step leaves
the whole session — CharacterState, Ledger and current scene — exactly as
it was.  (The unamended claim also asserted that *no* failure mutates
anything; that part fails for a `TypeError` raised midway through the
update loop, which leaves the CharacterState partially updated with the
Ledger unchanged — see the counterexample.) -/
theorem claim_c2_failure_no_mutation :
    (∀ (s : Session) (c : String) (b : Bool),
       take_choice s c b none = (s, Outcome.noResponse)) ∧
    (∀ (s : Session) (c : String) (b : Bool) (raw : String),
       parse_llm_json raw = none →
       take_choice s c b (some raw) = (s, Outcome.parseFailed raw)) :=
  ⟨fun s c b => tc_none_eq s c b, fun s c b raw h => tc_parse_failed_eq s c b raw h⟩

/-- C2 witness: both failure modes at a concrete session; the session is
returned unchanged. -/
theorem claim_c2_witness :
    take_choice sessionPlain "look around" false none = (sessionPlain, Outcome.noResponse) ∧
    parse_llm_json "the model rambled with no json" = none ∧
    take_choice sessionPlain "look around" false (some "the model rambled with no json")
      = (sessionPlain, Outcome.parseFailed "the model rambled with no json") :=
  ⟨claim_c2_failure_no_mutation.1 sessionPlain "look around" false, rfl,
   claim_c2_failure_no_mutation.2 sessionPlain "look around" false
     "the model rambled with no json" rfl⟩

/-- C2 counterexample: `advance` fails (uncaught `TypeError` in the update
loop) yet the CharacterState has already been mutated — `hp` went from 10
to 8 — while the Ledger is unchanged.  A failing advance with exactly one
of the two mutated contradicts "both advance together or neither does". -/
theorem claim_c2_counterexample :
    take_choice sessionAryn "go" false (some rawHpThenName)
      = (⟨[("hp", Json.num 8), ("name", Json.str "Aryn")], [], none⟩, Outcome.crashed) ∧
    (take_choice sessionAryn "go" false (some rawHpThenName)).1.story_history
      = sessionAryn.story_history ∧
    getVal "hp" (take_choice sessionAryn "go" false (some rawHpThenName)).1.pc
      = some (Json.num 8) ∧
    getVal "hp" sessionAryn.pc = some (Json.num 10) ∧
    (take_choice sessionAryn "go" false (some rawHpThenName)).1.pc ≠ sessionAryn.pc := by
  refine ⟨rfl, rfl, rfl, rfl, ?_⟩
  intro h
  have h2 : getVal "hp" (take_choice sessionAryn "go" false (some rawHpThenName)).1.pc
      = getVal "hp" sessionAryn.pc := by rw [h]
  rw [show getVal "hp" (take_choice sessionAryn "go" false (some rawHpThenName)).1.pc
        = some (Json.num 8) from rfl,
      show getVal "hp" sessionAryn.pc = some (Json.num 10) from rfl] at h2
  injection h2 with h3
  injection h3 with h4
  omega

/-- C10 (amended): whenever the reply parses as a JSON mapping *and* the
update step runs cleanly (`state_updates` absent, falsy, or a mapping whose
numeric deltas hit numeric-or-absent keys), `advance` appends exactly one
history entry whose `scene_id`, `narrative` and `choices` are `parsed.get`
of the mapping — the Python `None` (here `Json.null`) when absent — with no
field-presence check, and that entry becomes the current scene.  (The
unamended universal claim fails when a truthy non-mapping `state_updates`
raises before the append — see the counterexample.) -/
theorem claim_c10_append_no_validation :
    (∀ (s : Session) (c : String) (b : Bool) (raw : String)
       (kvs updates pc2 : List (String × Json)),
       parse_llm_json raw = some (Json.obj kvs) →
       getUpdates kvs = Except.ok updates →
       apply_state_updates s.pc updates = Except.ok pc2 →
       take_choice s c b (some raw) =
         ({ pc := pc2,
            story_history := s.story_history ++ [history_entry_of kvs c raw],
            current_scene := some (Scene.fromEntry (history_entry_of kvs c raw)) },
          Outcome.ok (history_entry_of kvs c raw))) ∧
    (∀ (kvs : List (String × Json)) (c raw : String),
       (history_entry_of kvs c raw).scene_id = (getVal "scene_id" kvs).getD Json.null ∧
       (history_entry_of kvs c raw).narrative = (getVal "narrative" kvs).getD Json.null ∧
       (history_entry_of kvs c raw).choices = (getVal "choices" kvs).getD Json.null) :=
  ⟨fun s c b raw kvs updates pc2 hp hu ha => tc_ok_eq s c b raw kvs updates pc2 hp hu ha,
   fun _ _ _ => ⟨rfl, rfl, rfl⟩⟩

/-- C10 witness: a reply carrying only a scene id.  The appended entry has
`Json.null` narrative and choices and becomes the current scene. -/
theorem claim_c10_witness :
    parse_llm_json rawOnlySceneId = some (Json.obj [("scene_id", Json.str "s9")]) ∧
    getUpdates [("scene_id", Json.str "s9")] = Except.ok [] ∧
    apply_state_updates sessionPlain.pc [] = Except.ok sessionPlain.pc ∧
    take_choice sessionPlain "press on" false (some rawOnlySceneId) =
      ({ pc := sessionPlain.pc,
         story_history := sessionPlain.story_history
           ++ [history_entry_of [("scene_id", Json.str "s9")] "press on" rawOnlySceneId],
         current_scene := some (Scene.fromEntry
           (history_entry_of [("scene_id", Json.str "s9")] "press on" rawOnlySceneId)) },
       Outcome.ok (history_entry_of [("scene_id", Json.str "s9")] "press on" rawOnlySceneId)) ∧
    (history_entry_of [("scene_id", Json.str "s9")] "press on" rawOnlySceneId).narrative
      = Json.null :=
  ⟨rfl, rfl, rfl,
   claim_c10_append_no_validation.1 sessionPlain "press on" false rawOnlySceneId
     [("scene_id", Json.str "s9")] [] sessionPlain.pc rfl rfl rfl, rfl⟩

/-- C10 counterexample: the reply parses as a JSON mapping, but its
`state_updates` is a truthy non-mapping, so `updates.items()` raises before
anything is written: no history entry is appended at all. -/
theorem claim_c10_counterexample :
    parse_llm_json rawStringUpdates = some (Json.obj [("state_updates", Json.str "oops")]) ∧
    take_choice sessionPlain "go" false (some rawStringUpdates)
      = (sessionPlain, Outcome.crashed) ∧
    (take_choice sessionPlain "go" false (some rawStringUpdates)).1.story_history = [] :=
  ⟨rfl, rfl, rfl⟩

/-- C1 counterexample: the empty JSON object has no `sceneId`, no
`narrative` and no `choices`, yet `parse_llm_json` returns it successfully
instead of failing with a schema violation. -/
theorem claim_c1_counterexample :
    parse_llm_json rawEmptyObj = some (Json.obj []) := rfl

/-- C1 (amended): `parse_llm_json` performs no schema validation at all —
any text whose decode (direct or fence-stripped) yields a JSON value other
than `null` is returned as-is.  In particular every structure the claim
says must be rejected parses successfully: empty narrative, duplicate
choices, six choices, and a non-mapping `state_updates`.  There is no
`SchemaViolation` error kind anywhere; the only failure signal is the
single `None` result. -/
theorem claim_c1_no_schema_validation :
    parse_llm_json rawEmptyNarrative = some (Json.obj [("narrative", Json.str "")]) ∧
    parse_llm_json rawDupChoices
      = some (Json.obj [("narrative", Json.str "n"),
          ("choices", Json.arr [Json.str "x", Json.str "x"])]) ∧
    parse_llm_json rawSixChoices
      = some (Json.obj [("narrative", Json.str "n"),
          ("choices", Json.arr [Json.str "a", Json.str "b", Json.str "c",
            Json.str "d", Json.str "e", Json.str "f"])]) ∧
    parse_llm_json rawNonMappingUpdates
      = some (Json.obj [("narrative", Json.str "n"), ("state_updates", Json.num 3)]) :=
  ⟨rfl, rfl, rfl, rfl⟩

/-- C3: the inner SceneDelta is valid JSON; the parser accepts it bare and
accepts it wrapped in whitespace plus a *bare* code fence; but the common
```json-tagged fence makes both decode attempts fail, because
`str.strip("```")` removes only backtick characters and leaves the `json`
language tag in front of the brace. -/
theorem claim_c3_fence_stripping :
    loads rawSceneBare = some sceneBareJson ∧
    parse_llm_json rawSceneBare = some sceneBareJson ∧
    parse_llm_json rawScenePlainFence = some sceneBareJson ∧
    parse_llm_json rawSceneJsonFence = none :=
  ⟨rfl, rfl, rfl, rfl⟩

/-- C5 counterexample: `"[1]"` contains no opening brace, yet
`parse_llm_json` returns the decoded array successfully via the fallback
pass instead of failing. -/
theorem claim_c5_counterexample :
    ("[1]".toList.all (fun c => !(c == '{'))) = true ∧
    parse_llm_json "[1]" = some (Json.arr [Json.num 1]) :=
  ⟨rfl, rfl⟩

/-- C5 (amended): on a raw text with no opening brace the direct decode is
never attempted — the outcome is exactly that of the fallback pass (strip
whitespace and backticks, decode once, treat a decoded `null` as `None`).
The claim's concrete rejections do hold: the empty string and brace-free
prose fail; but brace-free text that is itself valid non-object JSON is
returned successfully, so `parse` does not fail on *every* brace-free
input. -/
theorem claim_c5_no_brace_fallback :
    (∀ text : String, (text.toList.all (fun c => !(c == '{'))) = true →
       parse_llm_json text = fallback_parse text) ∧
    parse_llm_json "" = none ∧
    parse_llm_json "no json here" = none := by
  refine ⟨fun text h => ?_, rfl, rfl⟩
  have hd : text.toList.dropWhile (fun c => !(c == '{')) = [] :=
    dropWhile_nil_of_all _ h
  simp only [parse_llm_json, hd]

/-- C5 witness: the no-brace theorem at a concrete brace-free input. -/
theorem claim_c5_witness :
    ("[2, 3]".toList.all (fun c => !(c == '{'))) = true ∧
    parse_llm_json "[2, 3]" = fallback_parse "[2, 3]" :=
  ⟨rfl, claim_c5_no_brace_fallback.1 "[2, 3]" rfl⟩

/-- C7: the end-to-end scenario.  From `{hp:10, strength:5}` and an empty
ledger, the given backend reply makes `advance("begin", free)` succeed with
`hp = 8` and a single ledger entry with sceneId `"s1"` and choiceTaken
`"begin"`, which becomes the current scene. -/
theorem claim_c7_end_to_end :
    take_choice sessionC7 "begin" true (some rawC7) =
      ({ pc := [("hp", Json.num 8), ("strength", Json.num 5)],
         story_history := [entryC7],
         current_scene := some (Scene.fromEntry entryC7) }, Outcome.ok entryC7) ∧
    getVal "hp" (take_choice sessionC7 "begin" true (some rawC7)).1.pc
      = some (Json.num 8) ∧
    (take_choice sessionC7 "begin" true (some rawC7)).1.story_history = [entryC7] ∧
    entryC7.scene_id = Json.str "s1" ∧
    entryC7.choice_taken = "begin" :=
  ⟨rfl, rfl, rfl, rfl, rfl⟩

/-- C6 (amended): the pointer invariant — current scene equals the last
ledger entry, null exactly when the ledger is empty — holds for a freshly
created character, is preserved by the restart button, by the Begin
Adventure operation and by `advance`; but it is *not* preserved by
adventure start (`start_new_adventure`), which installs a synthetic
prologue scene while leaving the ledger empty — see the counterexample. -/
theorem claim_c6_current_scene_invariant :
    (∀ (name court archetype : String) (strength guile magic : Int),
       currentMatchesLedger (create_character name court archetype strength guile magic)) ∧
    (∀ s : Session, currentMatchesLedger (restart_session s)) ∧
    (∀ (s : Session) (raw? : Option String),
       currentMatchesLedger s → currentMatchesLedger (begin_adventure s raw?)) ∧
    (∀ (s : Session) (c : String) (b : Bool) (raw? : Option String),
       currentMatchesLedger s → currentMatchesLedger (take_choice s c b raw?).1) := by
  refine ⟨fun _ _ _ _ _ _ => rfl, fun s => rfl, ?_, ?_⟩
  · intro s raw? h
    cases raw? with
    | none => exact h
    | some raw =>
      cases hp : parse_llm_json raw with
      | none => simpa [begin_adventure, hp] using h
      | some parsed =>
        cases parsed with
        | obj kvs =>
          simp only [begin_adventure, hp]
          show some (Scene.fromEntry (history_entry_of kvs "" raw))
            = ((s.story_history ++ [history_entry_of kvs "" raw]).getLast?).map Scene.fromEntry
          rw [getLast?_append_singleton]
          rfl
        | null => simpa [begin_adventure, hp] using h
        | bool b => simpa [begin_adventure, hp] using h
        | num n => simpa [begin_adventure, hp] using h
        | str t => simpa [begin_adventure, hp] using h
        | arr xs => simpa [begin_adventure, hp] using h
  · intro s c b raw? h
    cases raw? with
    | none => exact h
    | some raw =>
      cases hp : parse_llm_json raw with
      | none =>
        rw [tc_parse_failed_eq s c b raw hp]
        exact h
      | some parsed =>
        cases parsed with
        | obj kvs =>
          cases hu : getUpdates kvs with
          | error u =>
            have e : take_choice s c b (some raw) = (s, Outcome.crashed) := by
              simp only [take_choice, hp, hu]
            rw [e]
            exact h
          | ok updates =>
            cases ha : apply_state_updates s.pc updates with
            | error pcE =>
              have e : take_choice s c b (some raw)
                  = ({ s with pc := pcE }, Outcome.crashed) := by
                simp only [take_choice, hp, hu, ha]
              rw [e]
              exact h
            | ok pc2 =>
              rw [tc_ok_eq s c b raw kvs updates pc2 hp hu ha]
              show some (Scene.fromEntry (history_entry_of kvs c raw))
                = ((s.story_history ++ [history_entry_of kvs c raw]).getLast?).map
                    Scene.fromEntry
              rw [getLast?_append_singleton]
              rfl
        | null =>
          have e : take_choice s c b (some raw) = (s, Outcome.crashed) := by
            simp only [take_choice, hp]
          rw [e]
          exact h
        | bool bb =>
          have e : take_choice s c b (some raw) = (s, Outcome.crashed) := by
            simp only [take_choice, hp]
          rw [e]
          exact h
        | num n =>
          have e : take_choice s c b (some raw) = (s, Outcome.crashed) := by
            simp only [take_choice, hp]
          rw [e]
          exact h
        | str t =>
          have e : take_choice s c b (some raw) = (s, Outcome.crashed) := by
            simp only [take_choice, hp]
          rw [e]
          exact h
        | arr xs =>
          have e : take_choice s c b (some raw) = (s, Outcome.crashed) := by
            simp only [take_choice, hp]
          rw [e]
          exact h

/-- C6 witness: the invariant holds for a plain session and is preserved by
an `advance` whose backend call fails. -/
theorem claim_c6_witness :
    currentMatchesLedger sessionPlain ∧
    currentMatchesLedger (take_choice sessionPlain "wait" false none).1 :=
  ⟨rfl, claim_c6_current_scene_invariant.2.2.2 sessionPlain "wait" false none rfl⟩

/-- C6 counterexample: right after character creation the code runs
`start_new_adventure`, which leaves the ledger empty yet sets a non-null
synthetic current scene — the pointer is neither null nor the last ledger
entry, so "adventure start" does not preserve the invariant. -/
theorem claim_c6_counterexample :
    sessionStarted.story_history = [] ∧
    sessionStarted.current_scene ≠ none ∧
    ¬ currentMatchesLedger sessionStarted :=
  ⟨rfl, fun h => Option.noConfusion h, fun h => Option.noConfusion h⟩

/-- C8: the prompt composer's history window is `history[-6:]` — exactly
`histWindow 6`; and for every `n`, `histWindow n` returns the last
`min(n, length)` entries as a suffix in original relative order
(most-recent-last), in particular on a ledger of ten entries. -/
theorem claim_c8_history_window :
    (∀ (pc : List (String × Json)) (h : List HistoryEntry) (inp : String) (b : Bool),
       (build_messages pc h inp b).history_excerpt = histWindow 6 h) ∧
    (∀ (n : Nat) (l : List HistoryEntry), (histWindow n l).length = min n l.length) ∧
    (∀ (n : Nat) (l : List HistoryEntry), l.take (l.length - n) ++ histWindow n l = l) ∧
    (∀ (n : Nat) (l : List HistoryEntry), l.length = 10 →
       histWindow n l = l.drop (10 - min n 10)) := by
  refine ⟨fun _ _ _ _ => rfl, ?_, ?_, ?_⟩
  · intro n l
    rw [histWindow, List.length_drop]
    omega
  · intro n l
    rw [histWindow]
    exact List.take_append_drop _ l
  · intro n l hl
    rw [histWindow, hl]
    congr 1
    omega

/-- C8 witness: the window theorem at a concrete ten-entry ledger. -/
theorem claim_c8_witness :
    tenLedger.length = 10 ∧
    histWindow 4 tenLedger = tenLedger.drop (10 - min 4 10) :=
  ⟨rfl, claim_c8_history_window.2.2.2 4 tenLedger rfl⟩
